import Mathlib

/-!
Shallow embedding of the AZZAMCOALERT Telegram alert bot.

The repository holds two near-identical entry points:
  - `src/bot.py` — the background-scheduler variant (APScheduler
    BackgroundScheduler pinned to UTC, trigger hours transcribed to UTC
    by hand);
  - `src/unnamed/part_000` — the asyncio-scheduler variant (AsyncIOScheduler
    with a per-trigger timezone).

Definitions prefixed `bot` embed `src/bot.py`; definitions prefixed
`part000` embed `src/unnamed/part_000`.  Prices are modelled as rationals
(the Python code uses floats, but every claim is about exact decimal
values), time instants after zone projection as a (weekday, hour, minute)
triple with the Python weekday convention (Monday = 0 .. Sunday = 6), and
network effects as explicit oracle arguments.
-/

namespace Azzam

/-- Character for a single decimal digit d (0 ≤ d ≤ 9). -/
def digitChar (d : Nat) : Char := Char.ofNat (48 + d)

/-- Decimal rendering of a natural number, fuel-based so that it reduces
in the kernel.  Mirrors the decimal rendering used by Python string
formatting. -/
def natToStrAux : Nat → Nat → List Char
  | 0, _ => []
  | fuel + 1, n =>
    if n < 10 then [digitChar n]
    else natToStrAux fuel (n / 10) ++ [digitChar (n % 10)]

/-- Decimal rendering of a natural number as a string. -/
def natToStr (n : Nat) : String := ⟨natToStrAux (n + 1) n⟩

/-- Value of a list of decimal digit characters, as Python int() computes
it on a digit string (so "09" parses to 9). -/
def digitsToNat (cs : List Char) : Nat :=
  cs.foldl (fun n c => n * 10 + (c.toNat - 48)) 0

/-- Embeds the Python idiom `map(int, s.split(":"))` used on the literal
"HH:MM" strings of the market table: the characters before the first colon
give the hour, the characters after it give the minute. -/
def parseHM (s : String) : Nat × Nat :=
  let cs := s.toList
  (digitsToNat (cs.takeWhile (fun c => c ≠ ':')),
   digitsToNat ((cs.dropWhile (fun c => c ≠ ':')).drop 1))

/-- One entry of the MARKETS table (identical in both source files).
The Python dict keys "open" and "close" are rendered here as `openTime`
and `closeTime` because `open` is a Lean keyword. -/
structure Market where
  key : String
  name : String
  openTime : String
  closeTime : String
  tz : String
  flag : String
  deriving DecidableEq, Repr

/-- MARKETS entry "tokyo". -/
def tokyoMarket : Market :=
  ⟨"tokyo", "🇯🇵 Tokyo (Asia)", "09:00", "15:30", "Asia/Tokyo", "🌏"⟩

/-- MARKETS entry "london". -/
def londonMarket : Market :=
  ⟨"london", "🇬🇧 London", "08:00", "16:30", "Europe/London", "🌍"⟩

/-- MARKETS entry "newyork". -/
def newyorkMarket : Market :=
  ⟨"newyork", "🇺🇸 New York (NYSE/NASDAQ)", "09:30", "16:00", "America/New_York", "🌎"⟩

/-- The MARKETS table, in source order. -/
def MARKETS : List Market := [tokyoMarket, londonMarket, newyorkMarket]

/-- An instant already projected into some zone: the result of
`now_utc.astimezone(m["tz"])`, reduced to the fields the session check
reads.  `weekday` follows Python datetime.weekday(): Monday = 0,
Saturday = 5, Sunday = 6. -/
structure LocalTime where
  weekday : Nat
  hour : Nat
  minute : Nat
  deriving DecidableEq, Repr

/-- The session-open check of `cmd_status` (src/bot.py lines 188-194) and
`status` (src/unnamed/part_000 lines 220-226); the boolean expression is
identical in the two files:
weekday < 5, and (hour, minute) ≥ open, and (hour, minute) < close,
compared exactly as the source writes it. -/
def is_open (m : Market) (t : LocalTime) : Bool :=
  let oh := (parseHM m.openTime).1
  let om := (parseHM m.openTime).2
  let ch := (parseHM m.closeTime).1
  let cm := (parseHM m.closeTime).2
  decide (t.weekday < 5) &&
    (decide (oh < t.hour) || (decide (t.hour = oh) && decide (om ≤ t.minute))) &&
    (decide (t.hour < ch) || (decide (t.hour = ch) && decide (t.minute < cm)))

/-- A quote as returned by the provider: the fields "c" (current price)
and "pc" (previous close), each possibly missing from the JSON object. -/
structure Quote where
  c : Option ℚ
  pc : Option ℚ
  deriving DecidableEq, Repr

/-- Python truthiness of `d.get(key)` for a numeric field: missing gives
None (falsy) and 0 is falsy; every other number is truthy. -/
def truthy : Option ℚ → Bool
  | none => false
  | some x => decide (x ≠ 0)

/-- Round-half-to-even on rationals, the rounding of Python float
formatting with ":.2f" (applied here to the value scaled by 100). -/
def roundHE (x : ℚ) : ℤ :=
  let f : ℤ := ⌊x⌋
  if x - f < 1 / 2 then f
  else if 1 / 2 < x - f then f + 1
  else if 2 ∣ f then f else f + 1

/-- Rendering of a nonnegative rational with exactly two decimal places,
as Python "%.2f"-style formatting produces for the values in this code
(they are all nonnegative, since the source formats abs(pct)). -/
def fmt2 (x : ℚ) : String :=
  let n : ℕ := (roundHE (x * 100)).toNat
  natToStr (n / 100) ++ "." ++
    (if n % 100 < 10 then "0" else "") ++ natToStr (n % 100)

/-- The signal line both variants append for a symbol once their guards
pass: direction word and arrow chosen by pct > 0, magnitude abs(pct)
formatted to two decimals (identical f-string in both files). -/
def renderSignalLine (symbol : String) (pct : ℚ) : String :=
  "• *" ++ symbol ++ "*: " ++
    (if 0 < pct then "📈 BULLISH" else "📉 BEARISH") ++ " " ++
    (if 0 < pct then "▲" else "▼") ++ " " ++ fmt2 |pct| ++ "%"

/-- Per-symbol signal of src/bot.py lines 103-107: the guard is
truthiness of q.get("c") and q.get("pc") (the dict-truthiness conjunct
`q and` is subsumed: an empty dict has no truthy "c" field), then
pct = (c - pc) / pc * 100. -/
def botSignalLine (symbol : String) (q : Quote) : Option String :=
  if truthy q.c && truthy q.pc then
    let c := q.c.getD 0
    let pc := q.pc.getD 0
    some (renderSignalLine symbol ((c - pc) / pc * 100))
  else none

/-- Per-symbol signal of src/unnamed/part_000 lines 131-140: the guard is
key membership of "c" and "pc" (the dict-truthiness conjunct `quote and`
is subsumed: an empty dict has no "c" key), then truthiness of prev_close
and prev_close > 0, then the same pct formula. -/
def part000SignalLine (symbol : String) (q : Quote) : Option String :=
  match q.c, q.pc with
  | some current, some prev_close =>
    if truthy (some prev_close) && decide (0 < prev_close) then
      some (renderSignalLine symbol ((current - prev_close) / prev_close * 100))
    else none
  | _, _ => none

/-- Signal calculation as the specification words it (section 4.4): None
when the previous close is missing or ≤ 0, otherwise
pct = (current - previous_close) / previous_close * 100, BULLISH when
pct > 0 else BEARISH, abs(pct) rounded to two decimals.  The spec leaves
a missing current price unspecified; this model returns None there, which
matters to no claim.  This definition exists only to be compared with the
two source embeddings above. -/
def signalSpec (symbol : String) (q : Quote) : Option String :=
  match q.pc with
  | none => none
  | some prev =>
    if prev ≤ 0 then none
    else
      match q.c with
      | none => none
      | some current => some (renderSignalLine symbol ((current - prev) / prev * 100))

/-! News composition. -/

/-- A news item as both variants read it: `item.get(key, "")`, so a
missing field and an empty field are the same value. -/
structure NewsItem where
  headline : String
  source : String
  url : String
  deriving DecidableEq, Repr

/-- The body of the news response: either a JSON list or some other
shape (`isinstance(data, list)` fails). -/
inductive NewsResponse where
  | ok (items : List NewsItem)
  | malformed
  deriving DecidableEq, Repr

/-- Header line of the news message (identical in both files). -/
def newsHeader : String := "📰 *AZZAM & Co — Breaking Financial News*\n\n"

/-- The per-item block appended for an item with a nonempty headline
(identical f-string in both files). -/
def renderNewsItem (it : NewsItem) : String :=
  "• " ++ it.headline ++ "\n  _— " ++ it.source ++ "_\n\n"

/-- The accumulation loop `for item in ...: if headline: msg += ...`,
shared verbatim by job_news (src/bot.py) and breaking_news
(src/unnamed/part_000). -/
def appendNews (items : List NewsItem) (msg : String) : String :=
  items.foldl
    (fun m it => if it.headline = "" then m else m ++ renderNewsItem it) msg

/-- Truncation performed inside the fetch of src/bot.py line 132:
`data[:4] if isinstance(data, list) else []`. -/
def botTruncatedNews : NewsResponse → List NewsItem
  | .ok items => items.take 4
  | .malformed => []

/-- Truncation performed inside fetch_news of src/unnamed/part_000
line 82: `data[:5] if isinstance(data, list) else []`. -/
def part000TruncatedNews : NewsResponse → List NewsItem
  | .ok items => items.take 5
  | .malformed => []

/-- The message job_news (src/bot.py lines 134-144) dispatches for a given
fetched response, or none when `if news:` fails and no send happens. -/
def botNewsMessage (r : NewsResponse) : Option String :=
  let news := botTruncatedNews r
  if news.isEmpty then none else some (appendNews news newsHeader)

/-- The message breaking_news (src/unnamed/part_000 lines 156-171)
dispatches: it returns early when the fetched list is empty, and renders
`news[:4]` of the 5-truncated list otherwise. -/
def part000NewsMessage (r : NewsResponse) : Option String :=
  let news := part000TruncatedNews r
  if news.isEmpty then none else some (appendNews (news.take 4) newsHeader)

/-- Specification-side description of the rendered item blocks: items
with an empty headline are dropped, the rest are rendered in order.  Used
only on the right-hand side of theorems, never by the embeddings above. -/
def renderedItems (items : List NewsItem) : List String :=
  (items.filter (fun it => !(it.headline == ""))).map renderNewsItem

/-! Signal batch: the loop over the symbol list. -/

/-- The symbol list both signal jobs iterate over (the literal list in
job_signals and in bullish_bearish_signal). -/
def symbols : List String := ["SPY", "QQQ", "EURUSD"]

/-- Outcome of fetching one symbol, as seen by the per-symbol
try/except: none models an exception raised anywhere in the fetch or
JSON decode, which the handler (`pass` in src/bot.py, `continue` in
src/unnamed/part_000) turns into skipping the symbol. -/
def FetchOracle := String → Option Quote

/-- The accumulation loop of job_signals (src/bot.py lines 96-109):
per-symbol try/except, append a line when the guard passes. -/
def botSignalBatch (oracle : FetchOracle) : List String :=
  symbols.foldl
    (fun results s =>
      match oracle s with
      | none => results
      | some q =>
        match botSignalLine s q with
        | none => results
        | some line => results ++ [line]) []

/-- The accumulation loop of bullish_bearish_signal
(src/unnamed/part_000 lines 127-142): per-symbol try/except with
continue, append a line when the guards pass. -/
def part000SignalBatch (oracle : FetchOracle) : List String :=
  symbols.foldl
    (fun results s =>
      match oracle s with
      | none => results
      | some q =>
        match part000SignalLine s q with
        | none => results
        | some line => results ++ [line]) []

/-- Header of the signal message, parameterized by the rendered New York
time string (identical in both files). -/
def signalHeader (timeStr : String) : String :=
  "📊 *AZZAM & Co — Market Signal Update*\n🕐 " ++ timeStr ++ "\n\n"

/-- Footer of the signal message (identical in both files). -/
def signalFooter : String := "\n\n_Based on latest price vs previous close._"

/-- Full signal message of src/bot.py lines 115-121: sent only when the
result list is nonempty. -/
def botSignalsMessage (oracle : FetchOracle) (timeStr : String) : Option String :=
  let results := botSignalBatch oracle
  if results.isEmpty then none
  else some (signalHeader timeStr ++ String.intercalate "\n" results ++ signalFooter)

/-- Full signal message of src/unnamed/part_000 lines 144-151. -/
def part000SignalsMessage (oracle : FetchOracle) (timeStr : String) : Option String :=
  let results := part000SignalBatch oracle
  if results.isEmpty then none
  else some (signalHeader timeStr ++ String.intercalate "\n" results ++ signalFooter)

/-! Dispatcher send. -/

/-- What the underlying transport did with one outbound message. -/
inductive TransportResult where
  | delivered
  | failed (err : String)
  deriving DecidableEq, Repr

/-- The raw awaited send: an unreachable destination surfaces as a raised
exception, modelled as the error branch. -/
def sendAttempt : TransportResult → Except String Unit
  | .delivered => Except.ok ()
  | .failed e => Except.error e

/-- The send wrapper of src/bot.py lines 47-56.  The try/except catches
every exception from the transport; the handler logs and does not
re-raise, so the function returns normally (first component Except.ok ())
on both paths, and the Python return value is None in both cases.  The
second component is the log line produced. -/
def botSend (transport : TransportResult) (text : String) :
    Except String Unit × String :=
  match sendAttempt transport with
  | Except.ok _ => (Except.ok (), "Sent: " ++ text.take 60)
  | Except.error e => (Except.ok (), "Send error: " ++ e)

/-- The send_message wrapper of src/unnamed/part_000 lines 60-69, same
shape with its own log strings (the success log appends an ellipsis). -/
def part000Send (transport : TransportResult) (text : String) :
    Except String Unit × String :=
  match sendAttempt transport with
  | Except.ok _ => (Except.ok (), "Sent: " ++ text.take 60 ++ "...")
  | Except.error e => (Except.ok (), "Failed to send message: " ++ e)

/-! Configuration and startup. -/

/-- Environment lookup `os.getenv(key, default)`. -/
def os_getenv (env : String → Option String) (key dflt : String) : String :=
  (env key).getD dflt

/-- The three module-level configuration values, identical in the two
files (src/bot.py lines 12-14, src/unnamed/part_000 lines 13-15). -/
structure Config where
  telegramToken : String
  finnhubApiKey : String
  channelId : String
  deriving DecidableEq, Repr

/-- Configuration loading: every value falls back to a literal
placeholder default; nothing is validated. -/
def loadConfig (env : String → Option String) : Config :=
  ⟨os_getenv env "TELEGRAM_TOKEN" "YOUR_TELEGRAM_BOT_TOKEN_HERE",
   os_getenv env "FINNHUB_API_KEY" "YOUR_FINNHUB_API_KEY_HERE",
   os_getenv env "CHANNEL_ID" "YOUR_CHANNEL_OR_CHAT_ID_HERE"⟩

/-! Scheduler triggers. -/

/-- The clock a cron trigger is anchored to: src/bot.py constructs
BackgroundScheduler(timezone=TZ_UTC) so all its triggers are UTC;
src/unnamed/part_000 passes an explicit timezone per add_job call. -/
inductive Anchor where
  | utc
  | zoned (tz : String)
  deriving DecidableEq, Repr

/-- One add_job registration: hour field (possibly a list), minute, the
anchoring clock, and whether the day_of_week="mon-fri" filter is set. -/
structure CronTrigger where
  job : String
  hours : List Nat
  minute : Nat
  anchor : Anchor
  weekdaysOnly : Bool
  deriving DecidableEq, Repr

/-- src/bot.py line 216: good morning at 11:00 UTC. -/
def botMorningTrigger : CronTrigger := ⟨"good_morning", [11], 0, .utc, false⟩

/-- src/bot.py lines 219-220: Tokyo open and close in UTC. -/
def botTokyoOpenTrigger : CronTrigger := ⟨"market_open tokyo", [0], 0, .utc, false⟩

/-- src/bot.py line 220. -/
def botTokyoCloseTrigger : CronTrigger := ⟨"market_close tokyo", [6], 30, .utc, false⟩

/-- src/bot.py line 223. -/
def botLondonOpenTrigger : CronTrigger := ⟨"market_open london", [8], 0, .utc, false⟩

/-- src/bot.py line 224. -/
def botLondonCloseTrigger : CronTrigger := ⟨"market_close london", [16], 30, .utc, false⟩

/-- src/bot.py line 227. -/
def botNYOpenTrigger : CronTrigger := ⟨"market_open newyork", [14], 30, .utc, false⟩

/-- src/bot.py line 228. -/
def botNYCloseTrigger : CronTrigger := ⟨"market_close newyork", [21], 0, .utc, false⟩

/-- src/bot.py line 231: signals at 15,17,19,21 UTC. -/
def botSignalsTrigger : CronTrigger := ⟨"signals", [15, 17, 19, 21], 0, .utc, false⟩

/-- src/bot.py line 234: news at 8,11,14,17 UTC. -/
def botNewsTrigger : CronTrigger := ⟨"news", [8, 11, 14, 17], 0, .utc, false⟩

/-- src/bot.py line 237: events at 13:00 UTC, weekdays only. -/
def botEventsTrigger : CronTrigger := ⟨"events", [13], 0, .utc, true⟩

/-- The registrations of main (src/bot.py lines 216-237), in order. -/
def botTriggers : List CronTrigger :=
  [botMorningTrigger, botTokyoOpenTrigger, botTokyoCloseTrigger,
   botLondonOpenTrigger, botLondonCloseTrigger, botNYOpenTrigger,
   botNYCloseTrigger, botSignalsTrigger, botNewsTrigger, botEventsTrigger]

/-- src/unnamed/part_000 line 238: good morning at 6:00 New York. -/
def part000MorningTrigger : CronTrigger :=
  ⟨"good_morning", [6], 0, .zoned "America/New_York", false⟩

/-- src/unnamed/part_000 line 242. -/
def part000TokyoOpenTrigger : CronTrigger :=
  ⟨"market_open tokyo", [9], 0, .zoned "Asia/Tokyo", false⟩

/-- src/unnamed/part_000 line 243. -/
def part000TokyoCloseTrigger : CronTrigger :=
  ⟨"market_close tokyo", [15], 30, .zoned "Asia/Tokyo", false⟩

/-- src/unnamed/part_000 line 246. -/
def part000LondonOpenTrigger : CronTrigger :=
  ⟨"market_open london", [8], 0, .zoned "Europe/London", false⟩

/-- src/unnamed/part_000 line 247. -/
def part000LondonCloseTrigger : CronTrigger :=
  ⟨"market_close london", [16], 30, .zoned "Europe/London", false⟩

/-- src/unnamed/part_000 line 250. -/
def part000NYOpenTrigger : CronTrigger :=
  ⟨"market_open newyork", [9], 30, .zoned "America/New_York", false⟩

/-- src/unnamed/part_000 line 251. -/
def part000NYCloseTrigger : CronTrigger :=
  ⟨"market_close newyork", [16], 0, .zoned "America/New_York", false⟩

/-- src/unnamed/part_000 lines 254-255: signals at 10,12,14,16 New York. -/
def part000SignalsTrigger : CronTrigger :=
  ⟨"signals", [10, 12, 14, 16], 0, .zoned "America/New_York", false⟩

/-- src/unnamed/part_000 lines 258-259: news at 7,10,13,16 New York. -/
def part000NewsTrigger : CronTrigger :=
  ⟨"news", [7, 10, 13, 16], 0, .zoned "America/New_York", false⟩

/-- src/unnamed/part_000 lines 262-263: events at 8:00 New York,
weekdays only. -/
def part000EventsTrigger : CronTrigger :=
  ⟨"events", [8], 0, .zoned "America/New_York", true⟩

/-- The registrations of setup_scheduler (src/unnamed/part_000 lines
238-263), in order. -/
def part000Triggers : List CronTrigger :=
  [part000MorningTrigger, part000TokyoOpenTrigger, part000TokyoCloseTrigger,
   part000LondonOpenTrigger, part000LondonCloseTrigger, part000NYOpenTrigger,
   part000NYCloseTrigger, part000SignalsTrigger, part000NewsTrigger,
   part000EventsTrigger]

/-- UTC hour corresponding to local wall-clock hour h in a zone whose
current UTC offset is `offset` hours (New York: -5 under standard time,
-4 under daylight saving; London: 0 or 1; Tokyo: always 9). -/
def utcHourOfLocal (offset : Int) (h : Nat) : Nat :=
  (((h : Int) - offset).emod 24).toNat

/-- Whether trigger t fires when the wall clock of its reference zone
reads h:m, given that `offset` is the UTC offset currently in effect in
that zone.  A zone-anchored trigger compares the wall clock directly; a
UTC-anchored trigger compares the corresponding UTC hour against its
configured hour list. -/
def firesAtLocal (t : CronTrigger) (offset : Int) (h m : Nat) : Bool :=
  match t.anchor with
  | .zoned _ => t.hours.contains h && (t.minute == m)
  | .utc => t.hours.contains (utcHourOfLocal offset h) && (t.minute == m)

/-- Startup result: both main functions register their triggers
unconditionally; no code path inspects the configuration or aborts. -/
inductive StartupResult where
  | started (cfg : Config) (jobs : List CronTrigger)
  | configError
  deriving DecidableEq, Repr

/-- Startup of src/bot.py main (lines 203-242): load config at import
time, register the job table, start polling.  There is no validation
branch in the source, hence no path to configError. -/
def botStartup (env : String → Option String) : StartupResult :=
  .started (loadConfig env) botTriggers

/-- Startup of src/unnamed/part_000 main (lines 267-279), same shape
with the zone-anchored job table. -/
def part000Startup (env : String → Option String) : StartupResult :=
  .started (loadConfig env) part000Triggers

/-! Remaining message bodies, for the cross-variant comparison.  The two
files build these strings with textually identical f-strings; each
variant gets its own definition so the equality is a statement about the
two sources. -/

/-- good morning body of job_good_morning (src/bot.py lines 61-71),
parameterized by the rendered date string. -/
def botMorningBody (dateStr : String) : String :=
  "🌅 *Good Morning — AZZAM & Co Team!*\n\n📅 " ++ dateStr ++
    "\n\nToday\x27s market sessions:\n🌏 Tokyo:    09:00 – 15:30 JST\n🌍 London:   08:00 – 16:30 GMT\n🌎 New York: 09:30 – 16:00 EST\n\nStay focused, trade smart. Let\x27s have a great day! 💼📈"

/-- good morning body of good_morning (src/unnamed/part_000 lines
87-98). -/
def part000MorningBody (dateStr : String) : String :=
  "🌅 *Good Morning — AZZAM & Co Team!*\n\n📅 " ++ dateStr ++
    "\n\nToday\x27s market sessions:\n🌏 Tokyo:    09:00 – 15:30 JST\n🌍 London:   08:00 – 16:30 GMT\n🌎 New York: 09:30 – 16:00 EST\n\nStay focused, trade smart. Let\x27s have a great day! 💼📈"

/-- market open body of job_market_open (src/bot.py lines 74-81),
parameterized by the market entry and the rendered local time string. -/
def botMarketOpenBody (m : Market) (timeStr : String) : String :=
  m.flag ++ " *MARKET OPEN — " ++ m.name ++ "*\n\n🟢 The " ++ m.name ++
    " session has just opened!\n🕐 Local time: " ++ timeStr ++
    "\n\nWatch for early momentum and liquidity. Good luck traders! 📊"

/-- market open body of market_open_alert (src/unnamed/part_000 lines
102-110). -/
def part000MarketOpenBody (m : Market) (timeStr : String) : String :=
  m.flag ++ " *MARKET OPEN — " ++ m.name ++ "*\n\n🟢 The " ++ m.name ++
    " session has just opened!\n🕐 Local time: " ++ timeStr ++
    "\n\nWatch for early momentum and liquidity. Good luck traders! 📊"

/-- market close body of job_market_close (src/bot.py lines 84-91). -/
def botMarketCloseBody (m : Market) (timeStr : String) : String :=
  m.flag ++ " *MARKET CLOSE — " ++ m.name ++ "*\n\n🔴 The " ++ m.name ++
    " session has closed.\n🕐 Local time: " ++ timeStr ++
    "\n\nReview your trades and prepare for the next session. 📋"

/-- market close body of market_close_alert (src/unnamed/part_000 lines
113-121). -/
def part000MarketCloseBody (m : Market) (timeStr : String) : String :=
  m.flag ++ " *MARKET CLOSE — " ++ m.name ++ "*\n\n🔴 The " ++ m.name ++
    " session has closed.\n🕐 Local time: " ++ timeStr ++
    "\n\nReview your trades and prepare for the next session. 📋"

/-- The weekday-to-body mapping of job_events (src/bot.py lines 151-157),
identical to the one in high_impact_events. -/
def eventsTable : List (String × String) :=
  [("Monday", "• USD: Fed Member Speeches\n• EUR: Eurozone Sentix Index"),
   ("Tuesday", "• USD: Consumer Confidence\n• GBP: UK Claimant Count"),
   ("Wednesday", "• USD: ADP Employment + Fed Minutes\n• EUR: CPI Flash Estimate"),
   ("Thursday", "• USD: Initial Jobless Claims\n• EUR: ECB Meeting (if scheduled)"),
   ("Friday", "• USD: Non-Farm Payrolls (NFP) 🔥\n• USD: Unemployment Rate")]

/-- Event message of job_events (src/bot.py lines 149-163): none when
the rendered weekday name is not a key of the table (`if day in events`),
the formatted reminder otherwise. -/
def botEventsMessage (day : String) : Option String :=
  match eventsTable.lookup day with
  | none => none
  | some body =>
    some ("⚠️ *High Impact Events Today — " ++ day ++ "*\n\n" ++ body ++
      "\n\n_Stay alert — these can cause high volatility!_ 📉📈")

/-- Event message of high_impact_events (src/unnamed/part_000 lines
176-195), same table and f-string. -/
def part000EventsMessage (day : String) : Option String :=
  match eventsTable.lookup day with
  | none => none
  | some body =>
    some ("⚠️ *High Impact Events Today — " ++ day ++ "*\n\n" ++ body ++
      "\n\n_Stay alert — these can cause high volatility!_ 📉📈")

/-! Market-data requests: the URL and the explicit per-request timeout
each variant attaches.  src/bot.py passes
timeout=aiohttp.ClientTimeout(total=10) on both GET calls (lines 101 and
130); fetch_quote and fetch_news of src/unnamed/part_000 (lines 72-82)
pass no timeout argument at all. -/

/-- An outbound HTTP GET as configured by the caller. -/
structure HttpRequest where
  url : String
  timeoutSeconds : Option Nat
  deriving DecidableEq, Repr

/-- Quote request of job_signals (src/bot.py lines 100-101). -/
def botQuoteRequest (symbol apiKey : String) : HttpRequest :=
  ⟨"https://finnhub.io/api/v1/quote?symbol=" ++ symbol ++ "&token=" ++ apiKey,
   some 10⟩

/-- News request of job_news (src/bot.py lines 129-130). -/
def botNewsRequest (apiKey : String) : HttpRequest :=
  ⟨"https://finnhub.io/api/v1/news?category=general&token=" ++ apiKey, some 10⟩

/-- Quote request of fetch_quote (src/unnamed/part_000 lines 72-75): the
session.get call passes no timeout. -/
def part000QuoteRequest (symbol apiKey : String) : HttpRequest :=
  ⟨"https://finnhub.io/api/v1/quote?symbol=" ++ symbol ++ "&token=" ++ apiKey,
   none⟩

/-- News request of fetch_news (src/unnamed/part_000 lines 78-82): the
session.get call passes no timeout. -/
def part000NewsRequest (apiKey : String) : HttpRequest :=
  ⟨"https://finnhub.io/api/v1/news?category=general&token=" ++ apiKey, none⟩

/-! Helper lemmas shared by the claim theorems. -/

/-- Rounding an integer value is the identity. -/
theorem roundHE_intCast (n : ℤ) : roundHE ((n : ℚ)) = n := by
  simp [roundHE]

/-- Evaluation rule for the two-decimal formatter once the scaled value
is known to be an integer. -/
theorem fmt2_eval (x : ℚ) (n : ℤ) (h : x * 100 = (n : ℚ)) :
    fmt2 x = natToStr (n.toNat / 100) ++ "." ++
      (if n.toNat % 100 < 10 then "0" else "") ++ natToStr (n.toNat % 100) := by
  simp only [fmt2]
  rw [h, roundHE_intCast]

/-- The asyncio variant computes exactly the signal the specification
describes: its guard `prev_close and prev_close > 0` on present keys is
the condition previous close present and positive. -/
theorem part000SignalLine_eq_spec (s : String) (q : Quote) :
    part000SignalLine s q = signalSpec s q := by
  rcases q with ⟨c, pc⟩
  cases pc with
  | none => cases c <;> rfl
  | some prev =>
    cases c with
    | none =>
      simp only [part000SignalLine, signalSpec]
      split <;> rfl
    | some cur =>
      by_cases h : 0 < prev
      · simp [part000SignalLine, signalSpec, truthy, h, ne_of_gt h, not_le.mpr h]
      · simp [part000SignalLine, signalSpec, truthy, h, not_lt.mp h]

/-- On quotes whose current price is not the literal 0 and whose previous
close, when present, is nonnegative, the background variant computes the
signal the specification describes.  The hypotheses carve out exactly the
two divergences of its truthiness guard: a zero current price and a
negative previous close. -/
theorem botSignalLine_eq_spec (s : String) (q : Quote)
    (hc : q.c ≠ some 0) (hpc : ∀ v, q.pc = some v → 0 ≤ v) :
    botSignalLine s q = signalSpec s q := by
  rcases q with ⟨c, pc⟩
  cases pc with
  | none =>
    cases c <;> simp [botSignalLine, signalSpec, truthy]
  | some prev =>
    have hprev : 0 ≤ prev := hpc prev rfl
    rcases eq_or_lt_of_le hprev with heq | hpos
    · cases c <;> simp [botSignalLine, signalSpec, truthy, ← heq]
    · cases c with
      | none => simp [botSignalLine, signalSpec, truthy, not_le.mpr hpos]
      | some cur =>
        have hcne : cur ≠ 0 := by
          intro h
          exact hc (by simp [h])
        simp [botSignalLine, signalSpec, truthy, hcne, ne_of_gt hpos,
          not_le.mpr hpos]

/-- The per-symbol accumulation loop, with any line function and any
fetch oracle, collects exactly the successful lines in order: each
iteration either appends one line or leaves the accumulator unchanged. -/
theorem signalFold_eq (line : String → Quote → Option String)
    (oracle : FetchOracle) (l : List String) (acc : List String) :
    (l.foldl (fun results s =>
      match oracle s with
      | none => results
      | some q =>
        match line s q with
        | none => results
        | some ln => results ++ [ln]) acc)
      = acc ++ l.filterMap (fun s => (oracle s).bind (line s)) := by
  induction l generalizing acc with
  | nil => simp
  | cons s rest ih =>
    simp only [List.foldl_cons, List.filterMap_cons]
    cases hq : oracle s with
    | none => simp [hq, ih]
    | some q =>
      cases hl : line s q with
      | none => simp [hq, hl, ih]
      | some ln => simp [hq, hl, ih]

/-- Appending with a left fold factors through the starting string. -/
theorem foldl_append_factor (l : List String) (a : String) :
    List.foldl (fun r s => r ++ s) a l =
      a ++ List.foldl (fun r s => r ++ s) "" l := by
  induction l generalizing a with
  | nil => simp
  | cons x xs ih =>
    simp only [List.foldl_cons]
    rw [ih (a ++ x), ih ("" ++ x)]
    simp [String.append_assoc]

/-- The news accumulation loop renders, after the header it starts from,
exactly the items with a nonempty headline, in order. -/
theorem appendNews_eq (items : List NewsItem) (msg : String) :
    appendNews items msg = msg ++ String.join (renderedItems items) := by
  induction items generalizing msg with
  | nil => simp [appendNews, renderedItems, String.join]
  | cons it rest ih =>
    by_cases h : it.headline = ""
    · simp only [appendNews, List.foldl_cons, if_pos h]
      rw [show (rest.foldl (fun m it =>
          if it.headline = "" then m else m ++ renderNewsItem it) msg)
          = appendNews rest msg from rfl, ih]
      simp [renderedItems, h]
    · simp only [appendNews, List.foldl_cons, if_neg h]
      rw [show (rest.foldl (fun m it =>
          if it.headline = "" then m else m ++ renderNewsItem it)
          (msg ++ renderNewsItem it)) = appendNews rest (msg ++ renderNewsItem it) from rfl, ih]
      simp [renderedItems, h, String.join]
      rw [foldl_append_factor _ (renderNewsItem it)]
      simp [String.append_assoc]

/-! Claim theorems. -/

/-- C1 counterexample: the claim says a previous close ≤ 0 yields no
signal line, but the background variant (src/bot.py) guards only on
truthiness, so at current = 100, previous close = -100 it produces a
signal line while the claimed behaviour is None. -/
theorem C1_counterexample :
    signalSpec "SPY" ⟨some 100, some (-100)⟩ = none ∧
    (botSignalLine "SPY" ⟨some 100, some (-100)⟩).isSome = true ∧
    botSignalLine "SPY" ⟨some 100, some (-100)⟩ ≠
      signalSpec "SPY" ⟨some 100, some (-100)⟩ := by
  refine ⟨by simp [signalSpec], by simp [botSignalLine, truthy], ?_⟩
  have h1 : signalSpec "SPY" ⟨some 100, some (-100)⟩ = none := by simp [signalSpec]
  have h2 : (botSignalLine "SPY" ⟨some 100, some (-100)⟩).isSome = true := by
    simp [botSignalLine, truthy]
  intro h
  rw [h, h1] at h2
  exact Bool.false_ne_true h2

/-- C1 amended: the asyncio variant computes the claimed signal exactly
(None when previous close is missing or ≤ 0, else pct with BULLISH for
pct > 0 and BEARISH otherwise, abs(pct) to two decimals); the background
variant computes it on quotes whose current price is nonzero-or-missing
and whose previous close is nonnegative when present, diverging on a
negative previous close (line produced) and on a zero current price with
positive previous close (no line).  The three quoted examples hold in
both variants. -/
theorem C1_signal_calculation :
    (∀ s q, part000SignalLine s q = signalSpec s q) ∧
    (∀ s q, q.c ≠ some 0 → (∀ v, q.pc = some v → 0 ≤ v) →
      botSignalLine s q = signalSpec s q) ∧
    signalSpec "SPY" ⟨some 110, some 100⟩ = some "• *SPY*: 📈 BULLISH ▲ 10.00%" ∧
    part000SignalLine "SPY" ⟨some 110, some 100⟩ = some "• *SPY*: 📈 BULLISH ▲ 10.00%" ∧
    botSignalLine "SPY" ⟨some 110, some 100⟩ = some "• *SPY*: 📈 BULLISH ▲ 10.00%" ∧
    signalSpec "SPY" ⟨some 90, some 100⟩ = some "• *SPY*: 📉 BEARISH ▼ 10.00%" ∧
    part000SignalLine "SPY" ⟨some 90, some 100⟩ = some "• *SPY*: 📉 BEARISH ▼ 10.00%" ∧
    botSignalLine "SPY" ⟨some 90, some 100⟩ = some "• *SPY*: 📉 BEARISH ▼ 10.00%" ∧
    signalSpec "SPY" ⟨some 100, some 0⟩ = none ∧
    part000SignalLine "SPY" ⟨some 100, some 0⟩ = none ∧
    botSignalLine "SPY" ⟨some 100, some 0⟩ = none := by
  have hb : botSignalLine "SPY" ⟨some 110, some 100⟩ =
      some "• *SPY*: 📈 BULLISH ▲ 10.00%" := by
    have hpct : (((110 : ℚ) - 100) / 100 * 100) = 10 := by norm_num
    simp only [botSignalLine, truthy]
    norm_num
    rw [renderSignalLine]
    norm_num [hpct]
    rw [fmt2_eval 10 1000 (by norm_num)]
    decide
  have hb2 : botSignalLine "SPY" ⟨some 90, some 100⟩ =
      some "• *SPY*: 📉 BEARISH ▼ 10.00%" := by
    have hpct : (((90 : ℚ) - 100) / 100 * 100) = -10 := by norm_num
    simp only [botSignalLine, truthy]
    norm_num
    rw [renderSignalLine]
    norm_num [hpct]
    rw [fmt2_eval 10 1000 (by norm_num)]
    decide
  have hs : signalSpec "SPY" ⟨some 110, some 100⟩ =
      some "• *SPY*: 📈 BULLISH ▲ 10.00%" := by
    rw [← botSignalLine_eq_spec "SPY" ⟨some 110, some 100⟩ (by norm_num)
      (fun v hv => by
        have h100 : (100 : ℚ) = v := by simpa using hv
        exact h100 ▸ (by norm_num : (0 : ℚ) ≤ 100))]
    exact hb
  have hs2 : signalSpec "SPY" ⟨some 90, some 100⟩ =
      some "• *SPY*: 📉 BEARISH ▼ 10.00%" := by
    rw [← botSignalLine_eq_spec "SPY" ⟨some 90, some 100⟩ (by norm_num)
      (fun v hv => by
        have h100 : (100 : ℚ) = v := by simpa using hv
        exact h100 ▸ (by norm_num : (0 : ℚ) ≤ 100))]
    exact hb2
  refine ⟨part000SignalLine_eq_spec, botSignalLine_eq_spec, hs, ?_, hb, hs2, ?_, hb2,
    by simp [signalSpec], by simp [part000SignalLine, truthy], by simp [botSignalLine, truthy]⟩
  · rw [part000SignalLine_eq_spec]
    exact hs
  · rw [part000SignalLine_eq_spec]
    exact hs2

/-- C1 witness: the background-variant branch of the amended claim,
applied at the concrete bullish example quote. -/
theorem C1_witness :
    botSignalLine "QQQ" ⟨some 110, some 100⟩ = signalSpec "QQQ" ⟨some 110, some 100⟩ :=
  C1_signal_calculation.2.1 "QQQ" ⟨some 110, some 100⟩ (by norm_num)
    (fun v hv => by
      have h100 : (100 : ℚ) = v := by simpa using hv
      exact h100 ▸ (by norm_num : (0 : ℚ) ≤ 100))

/-- C2: for every market of the table and every instant already
projected into the market zone, the session check is false on Saturday
and Sunday (Python weekday 5 and 6), true at exactly the open
time-of-day on a weekday, and false at exactly the close time-of-day on
any day: the comparison is the half-open interval [open, close) at
minute resolution. -/
theorem C2_session_open_half_open_interval :
    ∀ m ∈ MARKETS,
      (∀ t : LocalTime, 5 ≤ t.weekday → is_open m t = false) ∧
      (∀ t : LocalTime, t.minute < 60 →
        (is_open m t = true ↔
          t.weekday < 5 ∧
          (parseHM m.openTime).1 * 60 + (parseHM m.openTime).2 ≤
            t.hour * 60 + t.minute ∧
          t.hour * 60 + t.minute <
            (parseHM m.closeTime).1 * 60 + (parseHM m.closeTime).2)) ∧
      (∀ w, w < 5 →
        is_open m ⟨w, (parseHM m.openTime).1, (parseHM m.openTime).2⟩ = true) ∧
      (∀ w, is_open m ⟨w, (parseHM m.closeTime).1, (parseHM m.closeTime).2⟩ = false) := by
  intro m hm
  simp only [MARKETS, List.mem_cons, List.not_mem_nil, or_false] at hm
  rcases hm with rfl | rfl | rfl <;>
    refine ⟨fun t hw => ?_, fun t hmi => ?_, fun w hw => ?_, fun w => ?_⟩ <;>
    [skip; rcases t with ⟨w, h, mi⟩; skip; skip;
     skip; rcases t with ⟨w, h, mi⟩; skip; skip;
     skip; rcases t with ⟨w, h, mi⟩; skip; skip] <;>
    simp [is_open, tokyoMarket, londonMarket, newyorkMarket, parseHM,
      digitsToNat] at * <;>
    omega

/-- C2 witness: the Tokyo market at a Monday open boundary, a Monday
close boundary, a Saturday mid-session instant, and a Monday 10:00
instant through the interval characterization. -/
theorem C2_witness :
    is_open tokyoMarket ⟨5, 10, 0⟩ = false ∧
    is_open tokyoMarket
      ⟨0, (parseHM tokyoMarket.openTime).1, (parseHM tokyoMarket.openTime).2⟩ = true ∧
    is_open tokyoMarket
      ⟨0, (parseHM tokyoMarket.closeTime).1, (parseHM tokyoMarket.closeTime).2⟩ = false ∧
    is_open tokyoMarket ⟨0, 10, 0⟩ = true := by
  obtain ⟨hwk, hiff, hopen, hclose⟩ :=
    C2_session_open_half_open_interval tokyoMarket (by simp [MARKETS])
  exact ⟨hwk ⟨5, 10, 0⟩ (by norm_num), hopen 0 (by norm_num), hclose 0,
    (hiff ⟨0, 10, 0⟩ (by norm_num)).mpr (by decide)⟩

/-- C3 counterexample: the claim says the signal digest fires at 10:00
New York time and the news digest at 07:00 New York time on every
calendar day regardless of the daylight-saving offset, but the
background variant (src/bot.py) registers fixed UTC hours: its signal
trigger does not fire at 10:00 New York under the daylight-saving offset
(UTC-4), and its news trigger does not fire at 07:00 New York even under
the standard offset (UTC-5); the asyncio variant does fire there. -/
theorem C3_counterexample :
    firesAtLocal botSignalsTrigger (-4) 10 0 = false ∧
    firesAtLocal botNewsTrigger (-5) 7 0 = false ∧
    firesAtLocal part000SignalsTrigger (-4) 10 0 = true ∧
    firesAtLocal part000NewsTrigger (-5) 7 0 = true := by
  decide

/-- C3 amended: every trigger of the asyncio variant is anchored in its
listed zone and fires at its listed wall-clock hours and minute whatever
the UTC offset.  The background variant registers fixed UTC hours: each
of its triggers except the news trigger fires at the listed wall-clock
time when the zone is at its standard offset (New York -5, London 0,
Tokyo 9); its news trigger corresponds to 03:00, 06:00, 09:00 and 12:00
New York under the standard offset, not the listed four times; and under
daylight-saving offsets (New York -4, London 1) the fixed UTC triggers
no longer match the listed wall-clock times. -/
theorem C3_schedule_table :
    (∀ offset : Int,
      (part000Triggers.all fun t =>
        t.hours.all fun h => firesAtLocal t offset h t.minute) = true) ∧
    (firesAtLocal botMorningTrigger (-5) 6 0 = true ∧
     firesAtLocal botTokyoOpenTrigger 9 9 0 = true ∧
     firesAtLocal botTokyoCloseTrigger 9 15 30 = true ∧
     firesAtLocal botLondonOpenTrigger 0 8 0 = true ∧
     firesAtLocal botLondonCloseTrigger 0 16 30 = true ∧
     firesAtLocal botNYOpenTrigger (-5) 9 30 = true ∧
     firesAtLocal botNYCloseTrigger (-5) 16 0 = true ∧
     ([10, 12, 14, 16].all fun h => firesAtLocal botSignalsTrigger (-5) h 0) = true ∧
     firesAtLocal botEventsTrigger (-5) 8 0 = true) ∧
    (([7, 10, 13, 16].all fun h => !(firesAtLocal botNewsTrigger (-5) h 0)) = true ∧
     ([3, 6, 9, 12].all fun h => firesAtLocal botNewsTrigger (-5) h 0) = true) ∧
    (firesAtLocal botMorningTrigger (-4) 6 0 = false ∧
     firesAtLocal botSignalsTrigger (-4) 10 0 = false ∧
     firesAtLocal botLondonOpenTrigger 1 8 0 = false) := by
  refine ⟨fun offset => rfl, by decide, by decide, by decide⟩

/-- C3 witness: the zone-anchored firing facts of the amended claim at a
concrete offset. -/
theorem C3_witness :
    (part000Triggers.all fun t =>
      t.hours.all fun h => firesAtLocal t 7 h t.minute) = true :=
  C3_schedule_table.1 7

/-- C4 counterexample: the two entry-point variants are not behaviourally
equivalent.  Their news triggers fire at different wall-clock instants
(at 07:00 New York under the standard offset the asyncio variant fires
and the background variant does not), and on the quote current = 50,
previous close = -50 the background variant emits a signal line while
the asyncio variant emits none. -/
theorem C4_counterexample :
    firesAtLocal botNewsTrigger (-5) 7 0 = false ∧
    firesAtLocal part000NewsTrigger (-5) 7 0 = true ∧
    part000SignalLine "QQQ" ⟨some 50, some (-50)⟩ = none ∧
    (botSignalLine "QQQ" ⟨some 50, some (-50)⟩).isSome = true := by
  refine ⟨by decide, by decide, ?_, by simp [botSignalLine, truthy]⟩
  simp [part000SignalLine, truthy]

/-- C4 amended: the two variants compose identical text for the morning,
market-open, market-close, event and news messages from the same inputs,
and identical signal lines on quotes with a nonzero-or-missing current
price and nonnegative previous close; their signal triggers coincide on
every wall-clock hour only at the New York standard offset, and diverge
under daylight saving. -/
theorem C4_variant_equivalence :
    (∀ d, botMorningBody d = part000MorningBody d) ∧
    (∀ m t, botMarketOpenBody m t = part000MarketOpenBody m t) ∧
    (∀ m t, botMarketCloseBody m t = part000MarketCloseBody m t) ∧
    (∀ day, botEventsMessage day = part000EventsMessage day) ∧
    (∀ r, botNewsMessage r = part000NewsMessage r) ∧
    (∀ s q, q.c ≠ some 0 → (∀ v, q.pc = some v → 0 ≤ v) →
      botSignalLine s q = part000SignalLine s q) ∧
    ((List.range 24).all fun h =>
      firesAtLocal botSignalsTrigger (-5) h 0 ==
        firesAtLocal part000SignalsTrigger (-5) h 0) = true ∧
    firesAtLocal botSignalsTrigger (-4) 10 0 = false ∧
    firesAtLocal part000SignalsTrigger (-4) 10 0 = true := by
  refine ⟨fun d => rfl, fun m t => rfl, fun m t => rfl, fun day => rfl, ?_, ?_,
    by decide, by decide, by decide⟩
  · intro r
    cases r with
    | malformed => rfl
    | ok items =>
      simp only [botNewsMessage, part000NewsMessage, botTruncatedNews,
        part000TruncatedNews, List.take_take]
      cases items with
      | nil => rfl
      | cons a l => simp
  · intro s q hc hpc
    rw [botSignalLine_eq_spec s q hc hpc, part000SignalLine_eq_spec]

/-- C4 witness: the signal-line branch of the amended equivalence at the
concrete bullish example quote. -/
theorem C4_witness :
    botSignalLine "SPY" ⟨some 110, some 100⟩ =
      part000SignalLine "SPY" ⟨some 110, some 100⟩ :=
  C4_variant_equivalence.2.2.2.2.2.1 "SPY" ⟨some 110, some 100⟩ (by norm_num)
    (fun v hv => by
      have h100 : (100 : ℚ) = v := by simpa using hv
      exact h100 ▸ (by norm_num : (0 : ℚ) ≤ 100))

/-- C5 counterexample: with every environment variable absent, both
startups still register their full job tables using the literal
placeholder defaults; neither fails with a configuration error. -/
theorem C5_counterexample :
    botStartup (fun _ => none) =
      .started ⟨"YOUR_TELEGRAM_BOT_TOKEN_HERE", "YOUR_FINNHUB_API_KEY_HERE",
        "YOUR_CHANNEL_OR_CHAT_ID_HERE"⟩ botTriggers ∧
    botStartup (fun _ => none) ≠ .configError ∧
    part000Startup (fun _ => none) =
      .started ⟨"YOUR_TELEGRAM_BOT_TOKEN_HERE", "YOUR_FINNHUB_API_KEY_HERE",
        "YOUR_CHANNEL_OR_CHAT_ID_HERE"⟩ part000Triggers ∧
    part000Startup (fun _ => none) ≠ .configError := by
  refine ⟨rfl, by simp [botStartup], rfl, by simp [part000Startup]⟩

/-- C5 amended: a missing configuration value is replaced by its literal
placeholder default and startup proceeds to schedule the full job table;
no environment makes startup fail with a configuration error. -/
theorem C5_config_defaults (env : String → Option String) :
    botStartup env ≠ .configError ∧
    part000Startup env ≠ .configError ∧
    loadConfig (fun _ => none) =
      ⟨"YOUR_TELEGRAM_BOT_TOKEN_HERE", "YOUR_FINNHUB_API_KEY_HERE",
        "YOUR_CHANNEL_OR_CHAT_ID_HERE"⟩ := by
  refine ⟨by simp [botStartup], by simp [part000Startup], rfl⟩

/-- C5 witness: startup with a partially populated environment does not
fail. -/
theorem C5_witness :
    botStartup (fun k => if k = "TELEGRAM_TOKEN" then some "T" else none) ≠
      .configError :=
  (C5_config_defaults (fun k => if k = "TELEGRAM_TOKEN" then some "T" else none)).1

/-- C6 counterexample: the claim says both market-data operations are
bounded by a fixed 10-second request timeout in both variants, but the
fetch helpers of the asyncio variant pass no timeout at all. -/
theorem C6_counterexample :
    (part000QuoteRequest "SPY" "KEY").timeoutSeconds = none ∧
    (part000NewsRequest "KEY").timeoutSeconds = none := ⟨rfl, rfl⟩

/-- C6 amended: the background variant attaches an explicit 10-second
total timeout to both its quote and news requests; the asyncio variant
issues the same two URLs with no explicit timeout. -/
theorem C6_request_timeouts (symbol apiKey : String) :
    (botQuoteRequest symbol apiKey).timeoutSeconds = some 10 ∧
    (botNewsRequest apiKey).timeoutSeconds = some 10 ∧
    (part000QuoteRequest symbol apiKey).timeoutSeconds = none ∧
    (part000NewsRequest apiKey).timeoutSeconds = none ∧
    (botQuoteRequest symbol apiKey).url = (part000QuoteRequest symbol apiKey).url ∧
    (botNewsRequest apiKey).url = (part000NewsRequest apiKey).url :=
  ⟨rfl, rfl, rfl, rfl, rfl, rfl⟩

/-- C6 witness: the amended timeout facts at concrete argument strings. -/
theorem C6_witness :
    (botQuoteRequest "SPY" "KEY").timeoutSeconds = some 10 ∧
    (part000QuoteRequest "SPY" "KEY").timeoutSeconds = none :=
  ⟨(C6_request_timeouts "SPY" "KEY").1, (C6_request_timeouts "SPY" "KEY").2.2.1⟩

/-- C7: in both variants the signal batch over the symbol list collects
exactly the lines of the symbols whose fetch returned a quote passing
the guard, in list order: a failed or guarded-out symbol contributes
nothing and does not disturb the others, and the composed message is
sent exactly when at least one line was collected. -/
theorem C7_per_symbol_isolation (oracle : FetchOracle) (timeStr : String) :
    botSignalBatch oracle =
      symbols.filterMap (fun s => (oracle s).bind (botSignalLine s)) ∧
    part000SignalBatch oracle =
      symbols.filterMap (fun s => (oracle s).bind (part000SignalLine s)) ∧
    botSignalsMessage oracle timeStr =
      (if (symbols.filterMap (fun s => (oracle s).bind (botSignalLine s))).isEmpty
       then none
       else some (signalHeader timeStr ++ String.intercalate "\n"
         (symbols.filterMap (fun s => (oracle s).bind (botSignalLine s))) ++
         signalFooter)) ∧
    part000SignalsMessage oracle timeStr =
      (if (symbols.filterMap (fun s => (oracle s).bind (part000SignalLine s))).isEmpty
       then none
       else some (signalHeader timeStr ++ String.intercalate "\n"
         (symbols.filterMap (fun s => (oracle s).bind (part000SignalLine s))) ++
         signalFooter)) := by
  have h1 : botSignalBatch oracle =
      [] ++ symbols.filterMap (fun s => (oracle s).bind (botSignalLine s)) :=
    signalFold_eq botSignalLine oracle symbols []
  have h2 : part000SignalBatch oracle =
      [] ++ symbols.filterMap (fun s => (oracle s).bind (part000SignalLine s)) :=
    signalFold_eq part000SignalLine oracle symbols []
  rw [List.nil_append] at h1 h2
  refine ⟨h1, h2, ?_, ?_⟩
  · simp only [botSignalsMessage, h1]
  · simp only [part000SignalsMessage, h2]

/-- C7 witness: with an oracle on which every fetch raises, the batch is
empty and no message is composed. -/
theorem C7_witness :
    botSignalBatch (fun _ => none) = [] ∧
    botSignalsMessage (fun _ => none) "10:00 EST" = none ∧
    part000SignalBatch (fun _ => none) = [] := by
  have h := C7_per_symbol_isolation (fun _ => none) "10:00 EST"
  refine ⟨?_, ?_, ?_⟩
  · rw [h.1]
    rfl
  · rw [h.2.2.1]
    rfl
  · rw [h.2.1]
    rfl

/-- C8 counterexample: the claim says the send operation returns a
failure to its caller, but on a failed delivery both wrappers catch the
exception and return exactly the value they return on success (Python
None, the unit of the non-raising result), so the caller receives no
failure indication. -/
theorem C8_counterexample :
    (botSend (.failed "network down") "hello").1 = Except.ok () ∧
    (botSend (.failed "network down") "hello").1 = (botSend .delivered "hello").1 ∧
    (part000Send (.failed "network down") "hello").1 = Except.ok () ∧
    (part000Send (.failed "network down") "hello").1 =
      (part000Send .delivered "hello").1 :=
  ⟨rfl, rfl, rfl, rfl⟩

/-- C8 amended: for every delivery outcome the send wrappers catch any
failure, log it, and return normally with no failure indication (the
same unit value as on success); no exception propagates into the
scheduling loop, so the invoking job completes. -/
theorem C8_send_never_raises (transport : TransportResult) (text : String) :
    (botSend transport text).1 = Except.ok () ∧
    (part000Send transport text).1 = Except.ok () ∧
    (∀ e, transport = .failed e →
      (botSend transport text).2 = "Send error: " ++ e ∧
      (part000Send transport text).2 = "Failed to send message: " ++ e) := by
  cases transport <;> simp [botSend, part000Send, sendAttempt]

/-- C8 witness: the amended claim at a concrete failed delivery,
producing the two log lines. -/
theorem C8_witness :
    (botSend (.failed "boom") "hi").2 = "Send error: " ++ "boom" ∧
    (part000Send (.failed "boom") "hi").2 = "Failed to send message: " ++ "boom" :=
  (C8_send_never_raises (.failed "boom") "hi").2.2 "boom" rfl

/-- C9: a malformed news response composes no message in either variant;
an ok response renders the header plus, in order, the items of the
truncated list (4 in the background variant, 5 then 4 in the asyncio
variant) whose headline is nonempty, hence at most 4 items; and removing
an empty-headline item from a list leaves the rendered blocks of the
other items unchanged. -/
theorem C9_news_rendering :
    botNewsMessage .malformed = none ∧
    part000NewsMessage .malformed = none ∧
    (∀ items : List NewsItem,
      botNewsMessage (.ok items) =
        (if (items.take 4).isEmpty then none
         else some (newsHeader ++ String.join (renderedItems (items.take 4)))) ∧
      part000NewsMessage (.ok items) =
        (if (items.take 5).isEmpty then none
         else some (newsHeader ++ String.join (renderedItems (items.take 4)))) ∧
      (renderedItems (items.take 4)).length ≤ 4) ∧
    (∀ pre post it, it.headline = "" →
      renderedItems (pre ++ it :: post) = renderedItems (pre ++ post)) := by
  refine ⟨rfl, rfl, fun items => ⟨?_, ?_, ?_⟩, fun pre post it h => ?_⟩
  · simp only [botNewsMessage, botTruncatedNews]
    split
    · rfl
    · rw [appendNews_eq]
  · simp only [part000NewsMessage, part000TruncatedNews, List.take_take]
    norm_num
    split
    · rfl
    · rw [appendNews_eq]
  · calc (renderedItems (items.take 4)).length
        ≤ (items.take 4).length := by
          simp only [renderedItems, List.length_map]
          exact List.length_filter_le _ _
      _ ≤ 4 := List.length_take_le 4 items
  · simp [renderedItems, List.filter_append, h]

/-- C9 witness: the empty-headline omission branch at a concrete
three-item list. -/
theorem C9_witness :
    renderedItems [⟨"A", "S", "u"⟩, ⟨"", "X", "v"⟩, ⟨"B", "T", "w"⟩] =
      renderedItems [⟨"A", "S", "u"⟩, ⟨"B", "T", "w"⟩] :=
  C9_news_rendering.2.2.2 [⟨"A", "S", "u"⟩] [⟨"B", "T", "w"⟩] ⟨"", "X", "v"⟩ rfl

/-- C10: when the fetched news list is nonempty but every item has an
empty headline, both variants still dispatch a message consisting of
exactly the header: the emptiness test that decides the send runs on the
truncated list before the headline filter. -/
theorem C10_header_only_send (items : List NewsItem) (hne : items ≠ [])
    (hall : ∀ it ∈ items, it.headline = "") :
    botNewsMessage (.ok items) = some newsHeader ∧
    part000NewsMessage (.ok items) = some newsHeader := by
  have hfil : ∀ n, (items.take n).filter (fun it => !(it.headline == "")) = [] := by
    intro n
    rw [List.filter_eq_nil_iff]
    intro a ha
    simp [hall a (List.take_subset n items ha)]
  have hrend : ∀ n, renderedItems (items.take n) = [] := by
    intro n
    simp [renderedItems, hfil n]
  have hne4 : (items.take 4).isEmpty = false := by
    cases items with
    | nil => exact absurd rfl hne
    | cons a l => rfl
  have hne5 : (items.take 5).isEmpty = false := by
    cases items with
    | nil => exact absurd rfl hne
    | cons a l => rfl
  constructor
  · simp only [botNewsMessage, botTruncatedNews, hne4, Bool.false_eq_true,
      if_false]
    rw [appendNews_eq, hrend 4]
    simp [String.join]
  · simp only [part000NewsMessage, part000TruncatedNews, hne5,
      Bool.false_eq_true, if_false, List.take_take]
    rw [appendNews_eq]
    have h45 : (min 4 5 : ℕ) = 4 := by norm_num
    rw [h45, hrend 4]
    simp [String.join]

/-- C10 witness: a single item with an empty headline still produces the
header-only message in both variants. -/
theorem C10_witness :
    ([(⟨"", "Reuters", "u"⟩ : NewsItem)] ≠ []) ∧
    botNewsMessage (.ok [⟨"", "Reuters", "u"⟩]) = some newsHeader ∧
    part000NewsMessage (.ok [⟨"", "Reuters", "u"⟩]) = some newsHeader := by
  have h := C10_header_only_send [⟨"", "Reuters", "u"⟩] (by simp)
    (fun it hit => by
      rw [List.mem_singleton] at hit
      rw [hit])
  exact ⟨by simp, h.1, h.2⟩

end Azzam
